import Mathlib

/-!
Shallow embedding of the buffered-write/rotation/backup log engine in
`src/utilities/logger/logger.go`.

Modelling conventions:
* `time.Time` values truncated to the hour (`time.Parse(HOURFORMAT, ...)`)
  are modelled as `Nat` hour stamps; Go's `t.After(hour)` is `hour < t`.
  The string `hour.Format(HOURFORMAT)` used to build rotated-file names is
  modelled by `hourFmt`.
* The file-size probe `FileSize()` (an `os.Stat` call) is an input oracle
  `ProbeResult`: it either yields a size, fails with a not-exist error, or
  fails with another error.
* The two disk writes in `FlushBufferQueue` (first attempt and retry) are
  input oracles `w1 w2 : Bool` (true = success).
* Side effects of one iteration of the `FlushBufferQueue` loop (close,
  rename, recreate, asynchronous archival, write attempts, sync) are
  recorded as fields of `CycleResult`.
-/

namespace NanoLegion

/-- `var logLevel = [4]string{"debug", "trace", "warn", "error"}` (logger.go line 23). -/
def logLevel : List String := ["debug", "trace", "warn", "error"]

/-- `KB int64 = 1 << 10` (logger.go line 52). -/
def KB : Int := 1 <<< 10

/-- `MB` is 1024 KB (logger.go line 54). -/
def MB : Int := KB <<< 10

/-- `GB` is 1024 MB (logger.go line 56). -/
def GB : Int := MB <<< 10

/-- `maxFileSize = 2 * GB` (logger.go line 59). -/
def maxFileSize : Int := 2 * GB

/-- `maxFileCount = 10` (logger.go line 60). -/
def maxFileCount : Nat := 10

/-- Stand-in for `hour.Format(HOURFORMAT)` on an abstract hour stamp. -/
def hourFmt (h : Nat) : String := toString h

/-- The outcome of the `FileSize()` probe (`os.Stat`, logger.go lines 265-271). -/
inductive ProbeResult where
  | ok (size : Int)
  | errNotExist
  | errOther
deriving Repr, DecidableEq

/-- The pair returned by `NeedSplit` plus whether it invoked `CreateFile`
(its recovery side effect at logger.go line 299). -/
structure SplitDecision where
  split : Bool
  backup : Bool
  recreate : Bool
deriving Repr, DecidableEq

/-- `NeedSplit` (logger.go lines 285-316): if the truncated current hour is
after the hour watermark, report backup (without probing the size);
otherwise probe the file size, recreating the file on a not-exist error,
and report split when the size strictly exceeds `maxFileSize`. -/
def NeedSplit (nowHour hour : Nat) (probe : ProbeResult) : SplitDecision :=
  if hour < nowHour then
    ⟨false, true, false⟩
  else
    match probe with
    | .errNotExist => ⟨false, false, true⟩
    | .errOther => ⟨false, false, false⟩
    | .ok size => if maxFileSize < size then ⟨true, false, false⟩ else ⟨false, false, false⟩

/-- The per-stream rotation state of `LoggerInfo` (logger.go lines 37-47):
base filename, hour watermark, generation counter `fileOrder`. -/
structure StreamState where
  filename : String
  hour : Nat
  fileOrder : Nat
deriving Repr, DecidableEq

/-- The split-file name `filename + "." + hour + "." + itoa(fileOrder%maxFileCount)`
(logger.go line 349 and line 376). -/
def splitName (filename hourStr : String) (fileOrder : Nat) : String :=
  filename ++ "." ++ hourStr ++ "." ++ toString (fileOrder % maxFileCount)

/-- The backup-file name of the hour-rotation branch (logger.go lines 373-377):
no generation component when `fileOrder` is 0. -/
def backupName (filename hourStr : String) (fileOrder : Nat) : String :=
  if fileOrder = 0 then filename ++ "." ++ hourStr
  else splitName filename hourStr fileOrder

/-- Observable effects of one iteration of the `FlushBufferQueue` loop
(logger.go lines 341-406) on one drained batch. -/
structure CycleResult where
  state : StreamState
  fileClosed : Bool
  /-- Name whose slot was cleared first: the `os.Stat`/`os.Remove` pair run
  on the rename target before `os.Rename` (logger.go lines 350-353, 379-382). -/
  clearedTarget : Option String
  renamedTo : Option String
  recreated : Bool
  archiveHour : Option Nat
  writeAttempts : Nat
  batchDropped : Bool
  synced : Bool
deriving Repr, DecidableEq

/-- One iteration of `FlushBufferQueue` (logger.go lines 341-406): run
`NeedSplit`; on split, rename to `splitName` (pre-deleting a file at that
name), recreate, increment `fileOrder` (and, were backup also set, reset
`fileOrder`, archive, advance the watermark); on backup alone, rename to
`backupName`, recreate, reset `fileOrder` to 0, archive with the old hour,
advance the watermark; then write the batch (one retry on failure) and sync. -/
def FlushCycle (s : StreamState) (nowHour : Nat) (probe : ProbeResult)
    (w1 w2 : Bool) : CycleResult :=
  let d := NeedSplit nowHour s.hour probe
  let attempts : Nat := if w1 then 1 else 2
  let dropped : Bool := !w1 && !w2
  if d.split then
    let newName := splitName s.filename (hourFmt s.hour) s.fileOrder
    if d.backup then
      { state := { filename := s.filename, hour := nowHour, fileOrder := 0 },
        fileClosed := true, clearedTarget := some newName,
        renamedTo := some newName, recreated := true,
        archiveHour := some s.hour, writeAttempts := attempts,
        batchDropped := dropped, synced := true }
    else
      { state := { filename := s.filename, hour := s.hour, fileOrder := s.fileOrder + 1 },
        fileClosed := true, clearedTarget := some newName,
        renamedTo := some newName, recreated := true,
        archiveHour := none, writeAttempts := attempts,
        batchDropped := dropped, synced := true }
  else
    if d.backup then
      let newName := backupName s.filename (hourFmt s.hour) s.fileOrder
      { state := { filename := s.filename, hour := nowHour, fileOrder := 0 },
        fileClosed := true, clearedTarget := some newName,
        renamedTo := some newName, recreated := true,
        archiveHour := some s.hour, writeAttempts := attempts,
        batchDropped := dropped, synced := true }
    else
      { state := s, fileClosed := false, clearedTarget := none,
        renamedTo := none, recreated := d.recreate,
        archiveHour := none, writeAttempts := attempts,
        batchDropped := dropped, synced := true }

/-- `LoggerBuffer.WriteString` (logger.go lines 454-456): append to the
accumulator. -/
def WriteString (buf : String) (s : String) : String := buf ++ s

/-- `LoggerBuffer.WriteBuffer` (logger.go lines 458-465): if the accumulator
is non-empty, push the whole accumulator as one queue entry and replace it
with a fresh empty buffer; otherwise do nothing. Returns (new accumulator,
new queue). -/
def WriteBuffer (buf : String) (bufferQueue : List String) : String × List String :=
  if buf.length > 0 then ("", bufferQueue ++ [buf]) else (buf, bufferQueue)

/-- A Go `interface{}` argument as dispatched by `Format`'s type switch
(logger.go lines 473-489): `int`, `string`, `int64`, or any other type
carried with its default `%v` rendering. -/
inductive GoValue where
  | gint (n : Int)
  | gstr (s : String)
  | gint64 (n : Int)
  | other (rendered : String)
deriving Repr, DecidableEq

/-- `strings.TrimRight(s, "\n")` (logger.go line 479): strip all trailing
newline characters. -/
def trimRightNewline (s : String) : String :=
  String.mk ((s.data.reverse.dropWhile (fun c => c == '\n')).reverse)

/-- One arm of `Format`'s type switch (logger.go lines 474-488): the pipe
separator followed by the argument's rendering. -/
def renderArg : GoValue → String
  | .gint n => "|" ++ toString n
  | .gstr s => "|" ++ trimRightNewline s
  | .gint64 n => "|" ++ toString n
  | .other r => "|" ++ r

/-- `Format` (logger.go lines 471-496), with `getDatetime()` supplied as the
`now` parameter: fold the rendered arguments after the timestamp, then
append `"|" ++ suffixInfo` when the suffix flag is set, and a newline. -/
def Format (now : String) (suffix : Bool) (suffixInfo : String)
    (args : List GoValue) : String :=
  let content := args.foldl (fun c a => c ++ renderArg a) ""
  if suffix then now ++ content ++ "|" ++ suffixInfo ++ "\n"
  else now ++ content ++ "\n"

/-- `Logger.SetLevel` (logger.go lines 127-135) as a pure function on the
stored threshold: clamp to `len(logLevel)` from above only. -/
def SetLevel (l : Int) : Int :=
  if l > (logLevel.length : Int) then (logLevel.length : Int) else l

/-- `Logger.CheckLevel` (logger.go lines 142-153): true when the threshold
is at most 0, otherwise membership of `logType` in `logLevel[threshold:]`. -/
def CheckLevel (threshold : Int) (logType : String) : Bool :=
  if threshold ≤ 0 then true
  else (logLevel.drop threshold.toNat).contains logType

/-! Helper lemmas about strings shared by the theorems below. -/

theorem string_length_pos_of_ne_empty (s : String) (h : s ≠ "") : 0 < s.length := by
  cases s with
  | mk data =>
    cases data with
    | nil => exact absurd rfl h
    | cons a l => simp [String.length_mk]

theorem string_join_snoc (q : List String) (s : String) :
    String.join (q ++ [s]) = String.join q ++ s := by
  simp [String.join, List.foldl_append]

/-! ## Claim theorems -/

/-- C1: `NeedSplit` never reports size-split and hour-backup in the same
cycle, and when the truncated current hour is after the hour watermark it
reports backup-due with a result independent of the file-size probe
(hour-rotation preempts size-rotation). -/
theorem needsplit_hour_precedence (nowHour hour : Nat) (probe probe' : ProbeResult) :
    ¬((NeedSplit nowHour hour probe).split = true ∧
      (NeedSplit nowHour hour probe).backup = true) ∧
    (hour < nowHour →
      NeedSplit nowHour hour probe = ⟨false, true, false⟩ ∧
      NeedSplit nowHour hour probe = NeedSplit nowHour hour probe') := by
  refine ⟨?_, fun h => by simp [NeedSplit, h]⟩
  unfold NeedSplit
  by_cases h : hour < nowHour
  · simp [h]
  · cases probe with
    | ok size => by_cases hs : maxFileSize < size <;> simp [h, hs]
    | errNotExist => simp [h]
    | errOther => simp [h]

theorem needsplit_hour_precedence_witness :
    NeedSplit 6 5 (ProbeResult.ok 0) = ⟨false, true, false⟩ ∧
    NeedSplit 6 5 (ProbeResult.ok 0) = NeedSplit 6 5 ProbeResult.errOther :=
  (needsplit_hour_precedence 6 5 (ProbeResult.ok 0) ProbeResult.errOther).2 (by decide)

/-- C2 counterexample: in a cycle where the size probe fails with a
not-exist error (and no hour boundary was crossed), the engine recreates
the file, does not rotate and does not backup — but it does NOT skip the
cycle's write: the drained batch is still written (one attempt here), so
the claim that the write is skipped is false. -/
theorem flushcycle_missing_file_cex :
    (FlushCycle ⟨"app.log", 5, 0⟩ 5 ProbeResult.errNotExist true true).recreated = true ∧
    (FlushCycle ⟨"app.log", 5, 0⟩ 5 ProbeResult.errNotExist true true).renamedTo = none ∧
    (FlushCycle ⟨"app.log", 5, 0⟩ 5 ProbeResult.errNotExist true true).archiveHour = none ∧
    (FlushCycle ⟨"app.log", 5, 0⟩ 5 ProbeResult.errNotExist true true).writeAttempts = 1 := by
  decide

/-- C2 (amended): in every cycle whose size probe fails with a not-exist
error and without an hour crossing, the engine recreates the file, does not
rotate, does not backup, leaves the stream state unchanged — and still
writes the drained batch in that same cycle (at least one write attempt). -/
theorem flushcycle_missing_file_recovers (s : StreamState) (nowHour : Nat)
    (w1 w2 : Bool) (h : ¬ s.hour < nowHour) :
    (FlushCycle s nowHour ProbeResult.errNotExist w1 w2).recreated = true ∧
    (FlushCycle s nowHour ProbeResult.errNotExist w1 w2).fileClosed = false ∧
    (FlushCycle s nowHour ProbeResult.errNotExist w1 w2).renamedTo = none ∧
    (FlushCycle s nowHour ProbeResult.errNotExist w1 w2).archiveHour = none ∧
    (FlushCycle s nowHour ProbeResult.errNotExist w1 w2).state = s ∧
    0 < (FlushCycle s nowHour ProbeResult.errNotExist w1 w2).writeAttempts := by
  cases w1 <;> simp [FlushCycle, NeedSplit, h]

theorem flushcycle_missing_file_recovers_witness :
    (FlushCycle ⟨"app.log", 7, 2⟩ 7 ProbeResult.errNotExist false true).recreated = true ∧
    (FlushCycle ⟨"app.log", 7, 2⟩ 7 ProbeResult.errNotExist false true).fileClosed = false ∧
    (FlushCycle ⟨"app.log", 7, 2⟩ 7 ProbeResult.errNotExist false true).renamedTo = none ∧
    (FlushCycle ⟨"app.log", 7, 2⟩ 7 ProbeResult.errNotExist false true).archiveHour = none ∧
    (FlushCycle ⟨"app.log", 7, 2⟩ 7 ProbeResult.errNotExist false true).state = ⟨"app.log", 7, 2⟩ ∧
    0 < (FlushCycle ⟨"app.log", 7, 2⟩ 7 ProbeResult.errNotExist false true).writeAttempts :=
  flushcycle_missing_file_recovers ⟨"app.log", 7, 2⟩ 7 false true (by decide)

/-- C9: `CheckLevel` returns true when the threshold is at most 0, and for a
positive threshold returns true exactly on membership in the dropped-prefix
level list; with threshold 2 (the index of "warn" in `logLevel`) it accepts
"warn" and "error" and rejects "debug" and "trace"; threshold 0 enables all
four levels. -/
theorem checklevel_threshold (t : Int) (name : String) :
    (t ≤ 0 → CheckLevel t name = true) ∧
    (0 < t → (CheckLevel t name = true ↔ name ∈ logLevel.drop t.toNat)) ∧
    logLevel.get? 2 = some "warn" ∧
    CheckLevel 2 "warn" = true ∧ CheckLevel 2 "error" = true ∧
    CheckLevel 2 "debug" = false ∧ CheckLevel 2 "trace" = false ∧
    CheckLevel 0 "debug" = true ∧ CheckLevel 0 "trace" = true ∧
    CheckLevel 0 "warn" = true ∧ CheckLevel 0 "error" = true := by
  refine ⟨fun h => by simp [CheckLevel, h], fun h => ?_, by decide, by decide, by decide,
    by decide, by decide, by decide, by decide, by decide, by decide⟩
  rw [CheckLevel, if_neg (by omega)]
  exact List.elem_iff

theorem checklevel_threshold_witness :
    CheckLevel (-1) "anything" = true ∧
    (CheckLevel 2 "warn" = true ↔ "warn" ∈ logLevel.drop (2 : Int).toNat) :=
  ⟨(checklevel_threshold (-1) "anything").1 (by decide),
   (checklevel_threshold 2 "warn").2.1 (by decide)⟩

/-- C10: `SetLevel` stores `l` when `l` is at most 4 (the number of levels)
and stores 4 when it exceeds it, and every stored threshold of 4 or more
makes `CheckLevel` return false for every level name, in particular the
four standard ones. -/
theorem setlevel_clamp (l t : Int) (name : String) :
    logLevel.length = 4 ∧
    (l ≤ 4 → SetLevel l = l) ∧
    (4 < l → SetLevel l = 4) ∧
    (4 ≤ t → CheckLevel t name = false) := by
  refine ⟨by decide, fun h => ?_, fun h => ?_, fun h => ?_⟩
  · rw [SetLevel, if_neg (by simp [logLevel]; omega)]
  · rw [SetLevel, if_pos (by simp [logLevel]; omega)]; simp [logLevel]
  · rw [CheckLevel, if_neg (by omega)]
    rw [List.drop_eq_nil_of_le (by simp [logLevel]; omega)]
    rfl

/-- C3: in a cycle whose only latched trigger is hour-backup, the engine
closes the file, renames it to `backupName` (`<filename>.<hour>` when the
generation is 0, `<filename>.<hour>.<generation mod maxFileCount>`
otherwise), clearing a pre-existing file at that name first, recreates
`filename`, resets the generation to 0, archives asynchronously with the
old hour, and advances the hour watermark to the current hour. -/
theorem flushcycle_hour_backup (s : StreamState) (nowHour : Nat) (probe : ProbeResult)
    (w1 w2 : Bool) (h : s.hour < nowHour) :
    (FlushCycle s nowHour probe w1 w2).fileClosed = true ∧
    (FlushCycle s nowHour probe w1 w2).renamedTo
      = some (backupName s.filename (hourFmt s.hour) s.fileOrder) ∧
    (s.fileOrder = 0 →
      (FlushCycle s nowHour probe w1 w2).renamedTo
        = some (s.filename ++ "." ++ hourFmt s.hour)) ∧
    (s.fileOrder ≠ 0 →
      (FlushCycle s nowHour probe w1 w2).renamedTo
        = some (s.filename ++ "." ++ hourFmt s.hour ++ "."
            ++ toString (s.fileOrder % maxFileCount))) ∧
    (FlushCycle s nowHour probe w1 w2).clearedTarget
      = (FlushCycle s nowHour probe w1 w2).renamedTo ∧
    (FlushCycle s nowHour probe w1 w2).recreated = true ∧
    (FlushCycle s nowHour probe w1 w2).state.fileOrder = 0 ∧
    (FlushCycle s nowHour probe w1 w2).archiveHour = some s.hour ∧
    (FlushCycle s nowHour probe w1 w2).state.hour = nowHour ∧
    (FlushCycle s nowHour probe w1 w2).state.filename = s.filename := by
  have key : FlushCycle s nowHour probe w1 w2 =
      { state := { filename := s.filename, hour := nowHour, fileOrder := 0 },
        fileClosed := true,
        clearedTarget := some (backupName s.filename (hourFmt s.hour) s.fileOrder),
        renamedTo := some (backupName s.filename (hourFmt s.hour) s.fileOrder),
        recreated := true, archiveHour := some s.hour,
        writeAttempts := if w1 then 1 else 2, batchDropped := !w1 && !w2,
        synced := true } := by
    simp [FlushCycle, NeedSplit, h]
  rw [key]
  refine ⟨rfl, rfl, fun h0 => ?_, fun h0 => ?_, rfl, rfl, rfl, rfl, rfl, rfl⟩
  · simp [backupName, h0]
  · simp [backupName, splitName, h0]

theorem flushcycle_hour_backup_witness :
    (FlushCycle ⟨"app.log", 5, 3⟩ 6 ProbeResult.errOther true true).fileClosed = true ∧
    (FlushCycle ⟨"app.log", 5, 3⟩ 6 ProbeResult.errOther true true).renamedTo
      = some (backupName "app.log" (hourFmt 5) 3) ∧
    ((3 : Nat) = 0 →
      (FlushCycle ⟨"app.log", 5, 3⟩ 6 ProbeResult.errOther true true).renamedTo
        = some ("app.log" ++ "." ++ hourFmt 5)) ∧
    ((3 : Nat) ≠ 0 →
      (FlushCycle ⟨"app.log", 5, 3⟩ 6 ProbeResult.errOther true true).renamedTo
        = some ("app.log" ++ "." ++ hourFmt 5 ++ "." ++ toString (3 % maxFileCount))) ∧
    (FlushCycle ⟨"app.log", 5, 3⟩ 6 ProbeResult.errOther true true).clearedTarget
      = (FlushCycle ⟨"app.log", 5, 3⟩ 6 ProbeResult.errOther true true).renamedTo ∧
    (FlushCycle ⟨"app.log", 5, 3⟩ 6 ProbeResult.errOther true true).recreated = true ∧
    (FlushCycle ⟨"app.log", 5, 3⟩ 6 ProbeResult.errOther true true).state.fileOrder = 0 ∧
    (FlushCycle ⟨"app.log", 5, 3⟩ 6 ProbeResult.errOther true true).archiveHour = some 5 ∧
    (FlushCycle ⟨"app.log", 5, 3⟩ 6 ProbeResult.errOther true true).state.hour = 6 ∧
    (FlushCycle ⟨"app.log", 5, 3⟩ 6 ProbeResult.errOther true true).state.filename = "app.log" :=
  flushcycle_hour_backup ⟨"app.log", 5, 3⟩ 6 ProbeResult.errOther true true (by decide)

/-- C4: in a cycle whose latched trigger is size-split (probed size exceeds
`maxFileSize`, no hour crossing), the engine closes the file, renames it to
`splitName` (clearing a pre-existing file at that name first), recreates
`filename`, increments the generation counter by one, keeps the hour
watermark, and does not archive. -/
theorem flushcycle_size_split (s : StreamState) (nowHour : Nat) (size : Int)
    (w1 w2 : Bool) (hh : ¬ s.hour < nowHour) (hs : maxFileSize < size) :
    (FlushCycle s nowHour (ProbeResult.ok size) w1 w2).fileClosed = true ∧
    (FlushCycle s nowHour (ProbeResult.ok size) w1 w2).renamedTo
      = some (splitName s.filename (hourFmt s.hour) s.fileOrder) ∧
    (FlushCycle s nowHour (ProbeResult.ok size) w1 w2).clearedTarget
      = (FlushCycle s nowHour (ProbeResult.ok size) w1 w2).renamedTo ∧
    (FlushCycle s nowHour (ProbeResult.ok size) w1 w2).recreated = true ∧
    (FlushCycle s nowHour (ProbeResult.ok size) w1 w2).state.fileOrder = s.fileOrder + 1 ∧
    (FlushCycle s nowHour (ProbeResult.ok size) w1 w2).state.hour = s.hour ∧
    (FlushCycle s nowHour (ProbeResult.ok size) w1 w2).state.filename = s.filename ∧
    (FlushCycle s nowHour (ProbeResult.ok size) w1 w2).archiveHour = none := by
  simp [FlushCycle, NeedSplit, hh, hs]

theorem flushcycle_size_split_witness :
    (FlushCycle ⟨"app.log", 5, 3⟩ 5 (ProbeResult.ok (maxFileSize + 1)) true true).fileClosed
      = true ∧
    (FlushCycle ⟨"app.log", 5, 3⟩ 5 (ProbeResult.ok (maxFileSize + 1)) true true).renamedTo
      = some (splitName "app.log" (hourFmt 5) 3) ∧
    (FlushCycle ⟨"app.log", 5, 3⟩ 5 (ProbeResult.ok (maxFileSize + 1)) true true).clearedTarget
      = (FlushCycle ⟨"app.log", 5, 3⟩ 5 (ProbeResult.ok (maxFileSize + 1)) true true).renamedTo ∧
    (FlushCycle ⟨"app.log", 5, 3⟩ 5 (ProbeResult.ok (maxFileSize + 1)) true true).recreated
      = true ∧
    (FlushCycle ⟨"app.log", 5, 3⟩ 5 (ProbeResult.ok (maxFileSize + 1)) true true).state.fileOrder
      = 3 + 1 ∧
    (FlushCycle ⟨"app.log", 5, 3⟩ 5 (ProbeResult.ok (maxFileSize + 1)) true true).state.hour
      = 5 ∧
    (FlushCycle ⟨"app.log", 5, 3⟩ 5 (ProbeResult.ok (maxFileSize + 1)) true true).state.filename
      = "app.log" ∧
    (FlushCycle ⟨"app.log", 5, 3⟩ 5 (ProbeResult.ok (maxFileSize + 1)) true true).archiveHour
      = none :=
  flushcycle_size_split ⟨"app.log", 5, 3⟩ 5 (maxFileSize + 1) true true
    (by decide) (by norm_num)

/-- C5: every split-file name uses the generation counter modulo
`maxFileCount` (which is 10): the name produced `maxFileCount` rotations
later coincides with (hence overwrites) the earlier one, and over any
number of size rotations within one hour at most `maxFileCount` distinct
split-file names exist. -/
theorem splitname_generation_wraps (f h : String) (k n : Nat) :
    maxFileCount = 10 ∧
    splitName f h (k + maxFileCount) = splitName f h k ∧
    ((Finset.range n).image (fun j => splitName f h j)).card ≤ maxFileCount := by
  refine ⟨rfl, ?_, ?_⟩
  · unfold splitName
    rw [Nat.add_mod_right]
  · have hsub : (Finset.range n).image (fun j => splitName f h j)
        ⊆ (Finset.range maxFileCount).image (fun j => splitName f h j) := by
      intro x hx
      rw [Finset.mem_image] at hx
      obtain ⟨j, _, rfl⟩ := hx
      rw [Finset.mem_image]
      refine ⟨j % maxFileCount, Finset.mem_range.mpr (Nat.mod_lt _ (by decide)), ?_⟩
      unfold splitName
      rw [Nat.mod_mod_of_dvd j dvd_rfl]
    calc ((Finset.range n).image (fun j => splitName f h j)).card
        ≤ ((Finset.range maxFileCount).image (fun j => splitName f h j)).card :=
          Finset.card_le_card hsub
      _ ≤ (Finset.range maxFileCount).card := Finset.card_image_le
      _ = maxFileCount := Finset.card_range _

/-- C6: `WriteBuffer` is all-or-nothing: a non-empty accumulator is pushed
whole as one queue entry and replaced by a fresh empty buffer; an empty
accumulator changes nothing; and the concatenation of queued entries plus
the accumulator is preserved, so no appended content is split or lost. -/
theorem writebuffer_all_or_nothing (buf : String) (q : List String) :
    (buf ≠ "" → WriteBuffer buf q = ("", q ++ [buf])) ∧
    (buf = "" → WriteBuffer buf q = (buf, q)) ∧
    String.join (WriteBuffer buf q).2 ++ (WriteBuffer buf q).1
      = String.join q ++ buf := by
  by_cases h : buf = ""
  · subst h
    have hc : ¬ ("" : String).length > 0 := by decide
    refine ⟨fun hne => absurd rfl hne, fun _ => ?_, ?_⟩
    · rw [WriteBuffer, if_neg hc]
    · rw [WriteBuffer, if_neg hc]
  · have hlen : buf.length > 0 := string_length_pos_of_ne_empty buf h
    refine ⟨fun _ => ?_, fun hc => absurd hc h, ?_⟩
    · rw [WriteBuffer, if_pos hlen]
    · rw [WriteBuffer, if_pos hlen]
      rw [string_join_snoc, String.append_empty]

theorem writebuffer_all_or_nothing_witness :
    WriteBuffer "x" [] = ("", [] ++ ["x"]) ∧ WriteBuffer "" ["y"] = ("", ["y"]) :=
  ⟨(writebuffer_all_or_nothing "x" []).1 (by decide),
   (writebuffer_all_or_nothing "" ["y"]).2.1 rfl⟩

theorem flushcycle_write_fields (s : StreamState) (nowHour : Nat) (probe : ProbeResult)
    (w1 w2 : Bool) :
    (FlushCycle s nowHour probe w1 w2).writeAttempts = (if w1 then 1 else 2) ∧
    (FlushCycle s nowHour probe w1 w2).batchDropped = (!w1 && !w2) ∧
    (FlushCycle s nowHour probe w1 w2).synced = true := by
  cases hd : NeedSplit nowHour s.hour probe with
  | mk sp bk rc => cases sp <;> cases bk <;> simp [FlushCycle, hd]

/-- C7: every flush cycle makes at most two write attempts — exactly one
when the first succeeds, exactly two otherwise (one retry, never more); the
batch is dropped precisely when both attempts fail; and the cycle syncs. -/
theorem flushcycle_write_retry (s : StreamState) (nowHour : Nat) (probe : ProbeResult)
    (w1 w2 : Bool) :
    (FlushCycle s nowHour probe w1 w2).writeAttempts ≤ 2 ∧
    (w1 = true → (FlushCycle s nowHour probe w1 w2).writeAttempts = 1 ∧
      (FlushCycle s nowHour probe w1 w2).batchDropped = false) ∧
    (w1 = false → (FlushCycle s nowHour probe w1 w2).writeAttempts = 2) ∧
    ((FlushCycle s nowHour probe w1 w2).batchDropped = true ↔ w1 = false ∧ w2 = false) ∧
    (FlushCycle s nowHour probe w1 w2).synced = true := by
  obtain ⟨ha, hd, hy⟩ := flushcycle_write_fields s nowHour probe w1 w2
  rw [ha, hd]
  refine ⟨?_, fun h1 => ?_, fun h1 => ?_, ?_, hy⟩
  · cases w1 <;> simp
  · subst h1; simp
  · subst h1; simp
  · cases w1 <;> cases w2 <;> simp

theorem flushcycle_write_retry_witness :
    (FlushCycle ⟨"app.log", 0, 0⟩ 0 ProbeResult.errOther false false).writeAttempts = 2 ∧
    (FlushCycle ⟨"app.log", 0, 0⟩ 0 ProbeResult.errOther false false).batchDropped = true :=
  ⟨(flushcycle_write_retry ⟨"app.log", 0, 0⟩ 0 ProbeResult.errOther false false).2.2.1 rfl,
   ((flushcycle_write_retry ⟨"app.log", 0, 0⟩ 0
      ProbeResult.errOther false false).2.2.2.1).mpr ⟨rfl, rfl⟩⟩

/-- C8: `Format` on `(suffix=true, "ctx", [1, "a\n", int64(9)])` yields the
timestamp followed by `"|1|a|9|ctx\n"`; stripping trailing newlines absorbs
a trailing `"\n"`; and every formatted line ends in a single appended
newline. -/
theorem format_pipeline (now s info : String) (b : Bool) (args : List GoValue) :
    Format now true "ctx" [GoValue.gint 1, GoValue.gstr "a\n", GoValue.gint64 9]
      = now ++ "|1|a|9|ctx\n" ∧
    trimRightNewline (s ++ "\n") = trimRightNewline s ∧
    (∃ p, Format now b info args = p ++ "\n") := by
  refine ⟨?_, ?_, ?_⟩
  · have step : Format now true "ctx" [GoValue.gint 1, GoValue.gstr "a\n", GoValue.gint64 9]
        = now ++ "|1|a|9" ++ "|" ++ "ctx" ++ "\n" := rfl
    rw [step]
    simp only [String.append_assoc]
    exact congrArg (fun t => now ++ t) (by decide)
  · refine congrArg String.mk ?_
    have hdata : (s ++ "\n").data = s.data ++ ['\n'] := String.data_append s "\n"
    rw [hdata, List.reverse_append]
    simp [List.dropWhile]
  · cases b with
    | true => exact ⟨now ++ (args.foldl (fun c a => c ++ renderArg a) "") ++ "|" ++ info, rfl⟩
    | false => exact ⟨now ++ (args.foldl (fun c a => c ++ renderArg a) ""), rfl⟩

theorem setlevel_clamp_witness :
    SetLevel 3 = 3 ∧ SetLevel 7 = 4 ∧ CheckLevel 4 "error" = false :=
  ⟨(setlevel_clamp 3 4 "error").2.1 (by decide),
   (setlevel_clamp 7 4 "error").2.2.1 (by decide),
   (setlevel_clamp 7 4 "error").2.2.2 (by decide)⟩

end NanoLegion
